import Mathlib

set_option maxRecDepth 8000

/-!
Verification of the Modbus RTU master engine (`Modbus_Master_Base_v1.py`)
and the passive poll-rate monitor (`Poll_Rate_Finder_v1.py`).

Bytes are modelled as natural numbers (with `< 256` hypotheses where the
arithmetic depends on it), byte strings as `List Nat`, 16-bit machine
arithmetic as `Nat` with explicit masking exactly where the source masks,
and wall-clock timestamps (Python `datetime` values, consumed only through
subtraction into seconds) as rationals.
-/

/-- One shift/XOR round of the Modbus CRC16 inner loop:
`crc = (crc >> 1) ^ 0xA001` when the low bit is set, else `crc = crc >> 1`. -/
def crcStep (crc : Nat) : Nat :=
  if crc &&& 1 = 1 then (crc >>> 1) ^^^ 0xA001 else crc >>> 1

/-- `n` iterations of `crcStep` (the source runs 8 per byte). -/
def crcRounds : Nat → Nat → Nat
  | 0, crc => crc
  | n + 1, crc => crcRounds n (crcStep crc)

/-- Absorb one byte: `crc ^= byte` followed by 8 shift/XOR rounds. -/
def crcUpdate (crc b : Nat) : Nat := crcRounds 8 (crc ^^^ b)

/-- Fold `crcUpdate` over a byte list from a given seed. -/
def crcFold : Nat → List Nat → Nat
  | crc, [] => crc
  | crc, b :: rest => crcFold (crcUpdate crc b) rest

/-- `ModbusMaster.calculate_crc`: seed `0xFFFF`, absorb every byte,
mask the result to 16 bits. -/
def calculate_crc (data : List Nat) : Nat := crcFold 0xFFFF data &&& 0xFFFF

/-- `ModbusResponse` (dataclass): result of one request/response cycle.
The `timestamp` field (a `datetime.now()` default) carries no protocol
content and is omitted. -/
structure ModbusResponse where
  slave_id : Option Nat := none
  function_code : Option Nat := none
  data : Option (List Nat) := none
  exception_code : Option Nat := none
  timeout : Bool := false
  crc_error : Bool := false
  raw_frame : Option (List Nat) := none
deriving DecidableEq

/-- `ModbusResponse.is_valid`: no timeout and no CRC error. -/
def ModbusResponse.is_valid (r : ModbusResponse) : Bool :=
  !r.timeout && !r.crc_error

/-- `ModbusResponse.is_exception`: an exception code is present. -/
def ModbusResponse.is_exception (r : ModbusResponse) : Bool :=
  r.exception_code.isSome

/-- The `exceptions` dictionary lookup inside `ModbusResponse.exception_name`,
with `dict.get`'s default `f"Unknown Exception ({code})"`. -/
def exceptionNameOf (n : Nat) : String :=
  if n = 1 then "Illegal Function"
  else if n = 2 then "Illegal Data Address"
  else if n = 3 then "Illegal Data Value"
  else if n = 4 then "Slave Device Failure"
  else if n = 5 then "Acknowledge"
  else if n = 6 then "Slave Device Busy"
  else if n = 8 then "Memory Parity Error"
  else if n = 10 then "Gateway Path Unavailable"
  else if n = 11 then "Gateway Target Failed"
  else "Unknown Exception (" ++ toString n ++ ")"

/-- `ModbusResponse.exception_name`. -/
def ModbusResponse.exception_name (r : ModbusResponse) : String :=
  match r.exception_code with
  | none => "Normal Response"
  | some c => exceptionNameOf c

/-- `struct.pack('>H', v)` for `v < 2^16`: big-endian 16-bit value. -/
def pack16be (v : Nat) : List Nat := [v / 256 % 256, v % 256]

/-- `struct.pack('<H', v)` for `v < 2^16`: little-endian 16-bit value. -/
def pack16le (v : Nat) : List Nat := [v % 256, v / 256 % 256]

/-- `struct.unpack('<H', ...)` of the last two bytes of a frame: the stored
little-endian CRC trailer. -/
def stored_crc (data : List Nat) : Nat :=
  data.getD (data.length - 2) 0 + 256 * data.getD (data.length - 1) 0

/-- `data[:-2]`: every byte of the frame except the 2-byte CRC trailer. -/
def frame_payload (data : List Nat) : List Nat := data.take (data.length - 2)

/-- `ModbusMaster._parse_response`: length check, CRC check, exception-bit
dispatch, payload extraction. -/
def parse_response (data : List Nat) : ModbusResponse :=
  if data.length < 5 then { timeout := true }
  else if stored_crc data ≠ calculate_crc (frame_payload data) then
    { slave_id := some data.headI
      function_code := some (data.getD 1 0)
      crc_error := true
      raw_frame := some data }
  else if data.getD 1 0 &&& 0x80 ≠ 0 then
    { slave_id := some data.headI
      function_code := some (data.getD 1 0 &&& 0x7F)
      exception_code := if 2 < data.length then some (data.getD 2 0) else none
      raw_frame := some data }
  else
    { slave_id := some data.headI
      function_code := some (data.getD 1 0)
      data := some (if 4 < data.length then (data.drop 2).take (data.length - 4) else [])
      raw_frame := some data }

/-- `ModbusMaster._is_complete_frame`. -/
def is_complete_frame (buffer : List Nat) : Bool :=
  if buffer.length < 5 then false
  else if buffer.getD 1 0 &&& 0x80 ≠ 0 then decide (5 ≤ buffer.length)
  else
    let function_code := buffer.getD 1 0
    if function_code = 0x03 ∨ function_code = 0x04 then
      if 3 ≤ buffer.length then decide (5 + buffer.getD 2 0 ≤ buffer.length)
      else decide (5 ≤ buffer.length)
    else if function_code = 0x01 ∨ function_code = 0x02 then
      if 3 ≤ buffer.length then decide (5 + buffer.getD 2 0 ≤ buffer.length)
      else decide (5 ≤ buffer.length)
    else if function_code = 0x05 ∨ function_code = 0x06 ∨
            function_code = 0x0F ∨ function_code = 0x10 then
      decide (8 ≤ buffer.length)
    else decide (5 ≤ buffer.length)

/-- The request-frame construction shared by `_read_registers` and
`probe_device`: address byte, function byte, big-endian start address and
count, little-endian CRC trailer. -/
def build_read_request (slave_id function_code start_address count : Nat) : List Nat :=
  let frame := [slave_id, function_code] ++ pack16be start_address ++ pack16be count
  frame ++ pack16le (calculate_crc frame)

/-- The register-decoding loop at the end of `_read_registers`: big-endian
16-bit values two bytes at a time; a trailing odd byte is discarded. -/
def decode_registers : List Nat → List Nat
  | a :: b :: rest => (a * 256 + b) :: decode_registers rest
  | _ => []

/-- The response-handling tail of `ModbusMaster._read_registers`, acting on
the parsed response; returns the `(registers, error)` pair of the source. -/
def read_registers_result (response : ModbusResponse) : Option (List Nat) × Option String :=
  if response.timeout then (none, some "Request timeout")
  else if response.crc_error then (none, some "CRC error in response")
  else if response.is_exception then
    (none, some ("Modbus exception: " ++ response.exception_name))
  else
    match response.data with
    | none => (none, some "Invalid response data")
    | some d =>
      if d.length < 1 then (none, some "Invalid response data")
      else
        let byte_count := d.headI
        let register_data := (d.drop 1).take byte_count
        if register_data.length ≠ byte_count then (none, some "Incomplete register data")
        else (some (decode_registers register_data), none)

/-- `frame.set i (frame[i] XOR 2^k)`: the frame with bit `k` of byte `i`
flipped. -/
def flipBit (frame : List Nat) (i k : Nat) : List Nat :=
  frame.set i (frame.getD i 0 ^^^ (1 <<< k))

/-- The loop of `ModbusMaster.scan_slaves`, with the per-probe response
supplied by a `probe` function (the serial exchange of `probe_device`).
Accumulators: the `found_ids` set (reported slave IDs already accepted)
and the `found_devices` list, appended in scan order. -/
def scanGo (probe : Nat → ModbusResponse) :
    List Nat → List (Option Nat) → List (Option Nat × ModbusResponse) →
    List (Option Nat × ModbusResponse)
  | [], _, found_devices => found_devices
  | slave_id :: rest, found_ids, found_devices =>
    let response := probe slave_id
    if response.is_valid = true ∧ response.slave_id ∉ found_ids then
      scanGo probe rest (response.slave_id :: found_ids)
        (found_devices ++ [(response.slave_id, response)])
    else
      scanGo probe rest found_ids found_devices

/-- `ModbusMaster.scan_slaves`: probe every ID in the range, keep valid
responses, deduplicate by the response's reported slave ID. -/
def scan_slaves (probe : Nat → ModbusResponse) (slave_range : List Nat) :
    List (Option Nat × ModbusResponse) :=
  scanGo probe slave_range [] []

/-- The `self.stats` counter dictionary of `ModbusMaster`. -/
structure Stats where
  requests_sent : Nat
  responses_received : Nat
  timeouts : Nat
  crc_errors : Nat
  exceptions : Nat

/-- The `success_rate` entry computed by `get_statistics` (Python float
division modelled over `ℚ`; exact for the values claimed). -/
def success_rate (s : Stats) : ℚ :=
  if 0 < s.requests_sent then (s.responses_received : ℚ) / s.requests_sent * 100 else 0

/-- The `error_rate` entry computed by `get_statistics`. -/
def error_rate (s : Stats) : ℚ :=
  if 0 < s.requests_sent then ((s.timeouts : ℚ) + s.crc_errors) / s.requests_sent * 100
  else 0

/-- A closed wave as recorded into `wave_stats['waves']`. -/
structure WaveInfo where
  start : ℚ
  «end» : ℚ
  duration : ℚ
  msg_count : Nat
deriving DecidableEq

/-- `collections.deque(maxlen=n)` append: drop from the left when full. -/
def dequeAppend (maxlen : Nat) (l : List α) (x : α) : List α :=
  let l' := l ++ [x]
  if maxlen < l'.length then l'.drop (l'.length - maxlen) else l'

/-- `min` against a running minimum initialised to `float('inf')`
(`none` plays the role of infinity). -/
def minOpt (o : Option ℚ) (x : ℚ) : Option ℚ :=
  match o with
  | none => some x
  | some a => some (min a x)

/-- The per-slave `wave_stats` record of `RS485PassiveMonitor`. -/
structure WaveStats where
  waves : List WaveInfo
  current_wave_start : Option ℚ
  current_wave_msgs : Nat
  last_msg_time : Option ℚ
  wave_intervals : List ℚ
  avg_wave_interval : ℚ
  avg_msgs_per_wave : ℚ
  min_wave_interval : Option ℚ
  max_wave_interval : ℚ
deriving DecidableEq

/-- The `defaultdict` default for `wave_stats`. -/
def initWaveStats : WaveStats :=
  { waves := []
    current_wave_start := none
    current_wave_msgs := 0
    last_msg_time := none
    wave_intervals := []
    avg_wave_interval := 0
    avg_msgs_per_wave := 0
    min_wave_interval := none
    max_wave_interval := 0 }

/-- `RS485PassiveMonitor._update_wave_stats`: close the open wave when the
gap since the slave's last message exceeds the threshold (recording it and
the inter-wave interval aggregates), else extend the open wave; always
update `last_msg_time`. -/
def update_wave_stats (wave_gap_threshold : ℚ) (ws : WaveStats) (timestamp : ℚ) :
    WaveStats :=
  let ws' :=
    match ws.last_msg_time with
    | some last =>
      let gap := timestamp - last
      if wave_gap_threshold < gap then
        let closed :=
          match ws.current_wave_start with
          | some cws =>
            let wave_duration := last - cws
            let wave_info : WaveInfo :=
              { start := cws, «end» := last, duration := wave_duration
                msg_count := ws.current_wave_msgs }
            let waves' := dequeAppend 100 ws.waves wave_info
            let wave_interval := cws - (waves'.getD (waves'.length - 2) wave_info).start
            let wave_intervals' :=
              if 1 < waves'.length then dequeAppend 100 ws.wave_intervals wave_interval
              else ws.wave_intervals
            let minwi' :=
              if 1 < waves'.length then minOpt ws.min_wave_interval wave_interval
              else ws.min_wave_interval
            let maxwi' :=
              if 1 < waves'.length then max ws.max_wave_interval wave_interval
              else ws.max_wave_interval
            let avg_wi :=
              if wave_intervals' ≠ [] then
                wave_intervals'.sum / wave_intervals'.length
              else ws.avg_wave_interval
            let avg_mpw :=
              if waves' ≠ [] then
                ((waves'.map WaveInfo.msg_count).sum : ℚ) / waves'.length
              else ws.avg_msgs_per_wave
            { ws with
                waves := waves'
                wave_intervals := wave_intervals'
                min_wave_interval := minwi'
                max_wave_interval := maxwi'
                avg_wave_interval := avg_wi
                avg_msgs_per_wave := avg_mpw }
          | none => ws
        { closed with current_wave_start := some timestamp, current_wave_msgs := 1 }
      else
        { ws with current_wave_msgs := ws.current_wave_msgs + 1 }
    | none =>
      { ws with current_wave_start := some timestamp, current_wave_msgs := 1 }
  { ws' with last_msg_time := some timestamp }

/-- The per-slave `slave_stats` record of `RS485PassiveMonitor`
(`min_interval` starts at `float('inf')`, modelled by `none`). -/
structure SlaveStats where
  count : Nat
  last_seen : Option ℚ
  intervals : List ℚ
  avg_rate : ℚ
  min_interval : Option ℚ
  max_interval : ℚ
deriving DecidableEq

/-- The `defaultdict` default for `slave_stats`. -/
def initSlaveStats : SlaveStats :=
  { count := 0
    last_seen := none
    intervals := []
    avg_rate := 0
    min_interval := none
    max_interval := 0 }

/-- The sticky `detected_protocols` flags. -/
structure Protocols where
  modbus_rtu : Bool
  modbus_ascii : Bool
  custom : Bool
deriving DecidableEq

/-- One entry put on `data_queue` for the GUI (the source stores
`frame.hex()`; the raw bytes are kept here). -/
structure QueueItem where
  timestamp : ℚ
  slave_id : Nat
  frame : List Nat
  length : Nat
  interval : ℚ
deriving DecidableEq

/-- `RS485PassiveMonitor._analyze_frame_validity`: plausibility filter plus
sticky protocol-flag updates. Mirrors the fall-through control flow of the
source. -/
def analyze_frame_validity (p : Protocols) (frame : List Nat) : Bool × Protocols :=
  if frame.length < 4 then (false, p)
  else
    let slave_id := frame.headI
    let function_code := frame.getD 1 0
    if ¬(1 ≤ slave_id ∧ slave_id ≤ 247) then (false, p)
    else
      let valid_functions : List Nat := [0x01, 0x02, 0x03, 0x04, 0x05, 0x06, 0x0F, 0x10]
      let exception_functions := valid_functions.map (· ||| 0x80)
      if (function_code ∈ valid_functions ∨ function_code ∈ exception_functions) ∧
          5 ≤ frame.length ∧
          stored_crc frame = calculate_crc (frame_payload frame) then
        (true, { p with modbus_rtu := true })
      else if slave_id = 58 then (true, { p with modbus_ascii := true })
      else if frame.any (fun b => 1 ≤ b ∧ b ≤ 247) then (true, { p with custom := true })
      else (false, p)

/-- The mutable state of `RS485PassiveMonitor` touched by frame processing.
The per-slave maps are total functions (the `defaultdict` default is built
in). -/
structure MonitorState where
  slave_ids : List Nat
  wave_gap_threshold : ℚ
  slave_stats : Nat → SlaveStats
  wave_stats : Nat → WaveStats
  data_queue : List QueueItem
  protocols : Protocols

/-- `RS485PassiveMonitor._process_frame` with the frame's capture time
passed explicitly (the source reads `datetime.now()`). -/
def process_frame (st : MonitorState) (frame : List Nat) (timestamp : ℚ) :
    MonitorState :=
  let vp := analyze_frame_validity st.protocols frame
  let st0 : MonitorState := { st with protocols := vp.2 }
  if vp.1 = false then st0
  else
    let slave_id := frame.headI
    if st0.slave_ids = [] ∨ slave_id ∈ st0.slave_ids then
      let st1 : MonitorState :=
        if slave_id ∉ st0.slave_ids then
          { st0 with slave_ids := slave_id :: st0.slave_ids }
        else st0
      let st2 : MonitorState :=
        { st1 with
            wave_stats := fun i =>
              if i = slave_id then
                update_wave_stats st1.wave_gap_threshold (st1.wave_stats slave_id) timestamp
              else st1.wave_stats i }
      let stats := st2.slave_stats slave_id
      match stats.last_seen with
      | some last =>
        let interval := timestamp - last
        if 1 / 100 ≤ interval then
          let intervals' := dequeAppend 100 stats.intervals interval
          let stats' : SlaveStats :=
            { count := stats.count + 1
              last_seen := some timestamp
              intervals := intervals'
              avg_rate :=
                if intervals' ≠ [] then intervals'.sum / intervals'.length
                else stats.avg_rate
              min_interval := minOpt stats.min_interval interval
              max_interval := max stats.max_interval interval }
          { st2 with
              slave_stats := fun i => if i = slave_id then stats' else st2.slave_stats i
              data_queue := st2.data_queue ++
                [{ timestamp := timestamp, slave_id := slave_id, frame := frame
                   length := frame.length, interval := interval }] }
        else st2
      | none =>
        let stats' : SlaveStats :=
          { stats with count := stats.count + 1, last_seen := some timestamp }
        { st2 with
            slave_stats := fun i => if i = slave_id then stats' else st2.slave_stats i
            data_queue := st2.data_queue ++
              [{ timestamp := timestamp, slave_id := slave_id, frame := frame
                 length := frame.length, interval := 0 }] }
    else st0

/-- One per-slave entry of the dictionary built by `get_current_rates`
(`time_since_last` is `float('inf')`, modelled `none`, when the slave was
never counted). -/
structure RateInfo where
  rate_hz : ℚ
  period_ms : ℚ
  message_count : Nat
  status : String
  time_since_last : Option ℚ
  current_wave_msgs : Nat
  total_waves : Nat
  avg_msgs_per_wave : ℚ

/-- `RS485PassiveMonitor.get_current_rates` restricted to one slave ID,
with the current wall-clock time passed explicitly. -/
def get_current_rates (st : MonitorState) (current_time : ℚ) (slave_id : Nat) :
    Option RateInfo :=
  if slave_id ∈ st.slave_ids then
    let stats := st.slave_stats slave_id
    let wave_stats := st.wave_stats slave_id
    let time_since_last := stats.last_seen.map (fun t => current_time - t)
    let status :=
      match time_since_last with
      | some t => if t < 1 then "🟢 Active" else if t < 3 then "🟡 Slowing" else "🔴 Idle"
      | none => "🔴 Idle"
    let recent_intervals := stats.intervals.filter (fun i => 0 < i)
    let mean :=
      if recent_intervals ≠ [] then recent_intervals.sum / recent_intervals.length else 0
    some
      { rate_hz := if recent_intervals ≠ [] then 1 / mean else 0
        period_ms := if recent_intervals ≠ [] then mean * 1000 else 0
        message_count := stats.count
        status := status
        time_since_last := time_since_last
        current_wave_msgs := wave_stats.current_wave_msgs
        total_waves := wave_stats.waves.length
        avg_msgs_per_wave := wave_stats.avg_msgs_per_wave }
  else none

/-- Verification helper: explicit inverse of `crcStep` on 16-bit values. -/
def crcUnstep (y : Nat) : Nat :=
  if y < 32768 then 2 * y else 2 * (y ^^^ 0xA001) + 1

/-- Concrete probe outcome table for exercising the scanner: IDs 2 and 4
answer validly, both reporting slave ID 9 (a misreported ID); everyone else
times out. -/
def probeW : Nat → ModbusResponse := fun id =>
  if id = 2 ∨ id = 4 then
    { slave_id := some 9, function_code := some 3, exception_code := some 2,
      raw_frame := some [9, 0x83, 2] }
  else { timeout := true }

/-- Concrete wave state: three messages at t = 0, 0.1, 0.2 s with a 0.5 s
gap threshold. -/
def waveW3 : WaveStats :=
  update_wave_stats (1/2)
    (update_wave_stats (1/2) (update_wave_stats (1/2) initWaveStats 0) (1/10)) (2/10)

/-- Concrete wave state: `waveW3` followed by a message at t = 1 s. -/
def waveW4 : WaveStats := update_wave_stats (1/2) waveW3 1

/-- Concrete monitor state for exercising `_process_frame`: slave 5 is
tracked, was last counted at t = 10 s, and has one recorded interval. -/
def monitorW : MonitorState :=
  { slave_ids := [5]
    wave_gap_threshold := 1/2
    slave_stats := fun _ =>
      { count := 3, last_seen := some 10, intervals := [1], avg_rate := 1,
        min_interval := some 1, max_interval := 1 }
    wave_stats := fun _ =>
      { initWaveStats with
          current_wave_start := some 9, current_wave_msgs := 2, last_msg_time := some 10 }
    data_queue := []
    protocols := { modbus_rtu := false, modbus_ascii := false, custom := false } }

/-- A 4-byte frame from slave 5 (matches the monitor's validity filter via
the custom-protocol fallback). -/
def frameW : List Nat := [5, 3, 0, 0]

/-! ## Theorems -/

/-! ### CRC16 bijectivity: the per-step state update is invertible on 16-bit
values, so distinct payloads that differ in a single byte keep distinct CRC
states forever after. -/

theorem shiftRight_one_eq_div (a : Nat) : a >>> 1 = a / 2 := by
  rw [Nat.shiftRight_eq_div_pow]

theorem xor_a001_ge {x : Nat} (hx : x < 32768) : 32768 ≤ x ^^^ 0xA001 := by
  have hbit : (x ^^^ 0xA001).testBit 15 = true := by
    rw [Nat.testBit_xor, Nat.testBit_lt_two_pow (show x < 2 ^ 15 by simpa using hx)]
    decide
  have h := Nat.testBit_implies_ge hbit
  norm_num at h
  omega

theorem xor_left_cancel_nat {c b b' : Nat} (h : c ^^^ b = c ^^^ b') : b = b' := by
  have h2 := congrArg (fun z => c ^^^ z) h
  simpa [← Nat.xor_assoc, Nat.xor_self, Nat.zero_xor] using h2

theorem xor_right_cancel_nat {c b b' : Nat} (h : b ^^^ c = b' ^^^ c) : b = b' := by
  have h2 := congrArg (fun z => z ^^^ c) h
  simpa [Nat.xor_assoc, Nat.xor_self, Nat.xor_zero] using h2

theorem crcStep_lt {crc : Nat} (h : crc < 2 ^ 16) : crcStep crc < 2 ^ 16 := by
  have hs : crc >>> 1 < 2 ^ 16 := by
    rw [shiftRight_one_eq_div]
    exact lt_of_le_of_lt (Nat.div_le_self _ _) h
  unfold crcStep
  split
  · exact Nat.xor_lt_two_pow hs (by norm_num)
  · exact hs

theorem crcUnstep_crcStep {a : Nat} (h : a < 2 ^ 16) : crcUnstep (crcStep a) = a := by
  have ha16 : a < 65536 := by norm_num at h; omega
  have hdiv : a / 2 < 32768 := by omega
  unfold crcStep crcUnstep
  by_cases hodd : a &&& 1 = 1
  · rw [if_pos hodd]
    have hge := xor_a001_ge (x := a >>> 1) (by rw [shiftRight_one_eq_div]; exact hdiv)
    rw [if_neg (by omega)]
    rw [Nat.xor_assoc, Nat.xor_self, Nat.xor_zero, shiftRight_one_eq_div]
    have hmod := Nat.and_one_is_mod a
    omega
  · rw [if_neg hodd]
    have hmod := Nat.and_one_is_mod a
    rw [if_pos (by rw [shiftRight_one_eq_div]; exact hdiv), shiftRight_one_eq_div]
    omega

theorem crcStep_inj {a b : Nat} (ha : a < 2 ^ 16) (hb : b < 2 ^ 16)
    (h : crcStep a = crcStep b) : a = b := by
  have h2 := congrArg crcUnstep h
  rwa [crcUnstep_crcStep ha, crcUnstep_crcStep hb] at h2

theorem crcRounds_lt : ∀ (n : Nat) {c : Nat}, c < 2 ^ 16 → crcRounds n c < 2 ^ 16
  | 0, _, h => h
  | n + 1, _, h => crcRounds_lt n (crcStep_lt h)

theorem crcRounds_inj : ∀ (n : Nat) {a b : Nat}, a < 2 ^ 16 → b < 2 ^ 16 →
    crcRounds n a = crcRounds n b → a = b
  | 0, _, _, _, _, h => h
  | n + 1, _, _, ha, hb, h =>
    crcStep_inj ha hb (crcRounds_inj n (crcStep_lt ha) (crcStep_lt hb) h)

theorem byte_lt_two_pow_16 {b : Nat} (hb : b < 256) : b < 2 ^ 16 :=
  lt_trans hb (by norm_num)

theorem crcUpdate_lt {c b : Nat} (hc : c < 2 ^ 16) (hb : b < 256) :
    crcUpdate c b < 2 ^ 16 :=
  crcRounds_lt 8 (Nat.xor_lt_two_pow hc (byte_lt_two_pow_16 hb))

theorem crcUpdate_inj_left {c1 c2 b : Nat} (h1 : c1 < 2 ^ 16) (h2 : c2 < 2 ^ 16)
    (hb : b < 256) (h : crcUpdate c1 b = crcUpdate c2 b) : c1 = c2 := by
  have hb16 := byte_lt_two_pow_16 hb
  exact xor_right_cancel_nat
    (crcRounds_inj 8 (Nat.xor_lt_two_pow h1 hb16) (Nat.xor_lt_two_pow h2 hb16) h)

theorem crcUpdate_inj_byte {c b b' : Nat} (hc : c < 2 ^ 16) (hb : b < 256)
    (hb' : b' < 256) (h : crcUpdate c b = crcUpdate c b') : b = b' :=
  xor_left_cancel_nat
    (crcRounds_inj 8 (Nat.xor_lt_two_pow hc (byte_lt_two_pow_16 hb))
      (Nat.xor_lt_two_pow hc (byte_lt_two_pow_16 hb')) h)

theorem crcFold_lt (l : List Nat) : ∀ {c : Nat}, c < 2 ^ 16 → (∀ b ∈ l, b < 256) →
    crcFold c l < 2 ^ 16 := by
  induction l with
  | nil => intro c hc _; simpa [crcFold] using hc
  | cons b rest ih =>
    intro c hc hl
    simp only [crcFold]
    exact ih (crcUpdate_lt hc (hl b (by simp))) (fun x hx => hl x (by simp [hx]))

theorem crcFold_inj (l : List Nat) : ∀ {c1 c2 : Nat}, c1 < 2 ^ 16 → c2 < 2 ^ 16 →
    (∀ b ∈ l, b < 256) → crcFold c1 l = crcFold c2 l → c1 = c2 := by
  induction l with
  | nil => intro c1 c2 _ _ _ h; simpa [crcFold] using h
  | cons b rest ih =>
    intro c1 c2 h1 h2 hl h
    have hb : b < 256 := hl b (by simp)
    refine crcUpdate_inj_left h1 h2 hb ?_
    exact ih (crcUpdate_lt h1 hb) (crcUpdate_lt h2 hb)
      (fun x hx => hl x (by simp [hx])) (by simpa [crcFold] using h)

theorem crcFold_append (c : Nat) (l1 l2 : List Nat) :
    crcFold c (l1 ++ l2) = crcFold (crcFold c l1) l2 := by
  induction l1 generalizing c with
  | nil => simp [crcFold]
  | cons b rest ih => simp [crcFold, ih]

theorem mask_of_lt {x : Nat} (h : x < 2 ^ 16) : x &&& 0xFFFF = x := by
  have h2 := Nat.and_pow_two_sub_one_of_lt_two_pow (n := 16) h
  norm_num at h2
  exact h2

/-- Flipping one bit of one byte of a byte string changes its Modbus CRC16. -/
theorem crc_flip_ne (l : List Nat) (hl : ∀ b ∈ l, b < 256) (i k : Nat)
    (hi : i < l.length) (hk : k < 8) :
    calculate_crc (l.set i (l.getD i 0 ^^^ (1 <<< k))) ≠ calculate_crc l := by
  have hget : l.getD i 0 = l[i] := by simp [List.getD_eq_getElem?_getD, hi]
  have hbmem : l.getD i 0 ∈ l := by rw [hget]; exact List.getElem_mem hi
  have hb : l.getD i 0 < 256 := hl _ hbmem
  have hpk : (1 <<< k) < 256 := by
    rw [Nat.one_shiftLeft]
    calc 2 ^ k < 2 ^ 8 := Nat.pow_lt_pow_right (by norm_num) hk
    _ ≤ 256 := by norm_num
  have hb' : l.getD i 0 ^^^ (1 <<< k) < 256 :=
    Nat.xor_lt_two_pow (n := 8) (by simpa using hb) (by simpa using hpk)
  have hbne : l.getD i 0 ^^^ (1 <<< k) ≠ l.getD i 0 := by
    intro h
    have h0 : l.getD i 0 ^^^ (1 <<< k) = l.getD i 0 ^^^ 0 := by rw [Nat.xor_zero]; exact h
    have h1 := xor_left_cancel_nat h0
    rw [Nat.one_shiftLeft] at h1
    exact absurd h1 (Nat.pos_iff_ne_zero.mp (Nat.two_pow_pos k))
  have hset : l.set i (l.getD i 0 ^^^ (1 <<< k)) =
      l.take i ++ (l.getD i 0 ^^^ (1 <<< k)) :: l.drop (i + 1) :=
    List.set_eq_take_cons_drop _ hi
  have horig : l = l.take i ++ l.getD i 0 :: l.drop (i + 1) := by
    conv_lhs => rw [← List.take_append_drop i l, List.drop_eq_getElem_cons hi]
    rw [hget]
  have htake : ∀ x ∈ l.take i, x < 256 := fun x hx => hl x (List.take_subset i l hx)
  have hdrop : ∀ x ∈ l.drop (i + 1), x < 256 := fun x hx => hl x (List.drop_subset _ l hx)
  have hc : crcFold 0xFFFF (l.take i) < 2 ^ 16 := crcFold_lt _ (by norm_num) htake
  intro heq
  unfold calculate_crc at heq
  rw [hset] at heq
  conv_rhs at heq => rw [horig]
  rw [crcFold_append, crcFold_append] at heq
  simp only [crcFold] at heq
  rw [mask_of_lt (crcFold_lt _ (crcUpdate_lt hc hb') hdrop),
    mask_of_lt (crcFold_lt _ (crcUpdate_lt hc hb) hdrop)] at heq
  have hupd := crcFold_inj _ (crcUpdate_lt hc hb') (crcUpdate_lt hc hb) hdrop heq
  exact hbne (crcUpdate_inj_byte hc hb' hb hupd)

/-- C1: for every frame that parses successfully (length at least 5 and the
stored little-endian CRC trailer equal to the CRC16 of the preceding bytes),
flipping any single bit of any byte outside the 2-byte CRC trailer makes
`_parse_response` report a CRC error — no single-bit payload flip is ever
accepted. -/
theorem crc_tamper_detected :
    ∀ frame : List Nat, (∀ b ∈ frame, b < 256) → 5 ≤ frame.length →
    stored_crc frame = calculate_crc (frame_payload frame) →
    ∀ i k : Nat, i < frame.length - 2 → k < 8 →
    (parse_response (flipBit frame i k)).crc_error = true := by
  intro frame hbytes hlen hcrc i k hi hk
  have hii : i < frame.length := by omega
  set v := frame.getD i 0 ^^^ (1 <<< k) with hv
  have hlen' : (flipBit frame i k).length = frame.length := by
    simp [flipBit]
  have hstored : stored_crc (flipBit frame i k) = stored_crc frame := by
    unfold stored_crc
    rw [hlen']
    simp only [flipBit, ← hv, List.getD_eq_getElem?_getD]
    rw [List.getElem?_set_ne (by omega), List.getElem?_set_ne (by omega)]
  have hpaylen : (frame_payload frame).length = frame.length - 2 := by
    simp [frame_payload]
  have hpay : frame_payload (flipBit frame i k) =
      (frame_payload frame).set i ((frame_payload frame).getD i 0 ^^^ (1 <<< k)) := by
    unfold frame_payload
    rw [hlen']
    simp only [flipBit, ← hv]
    rw [List.set_take]
    have : (frame.take (frame.length - 2)).getD i 0 = frame.getD i 0 := by
      simp only [List.getD_eq_getElem?_getD]
      rw [List.getElem?_take_of_lt hi]
    rw [this]
  have hflip : calculate_crc (frame_payload (flipBit frame i k)) ≠
      calculate_crc (frame_payload frame) := by
    rw [hpay]
    exact crc_flip_ne (frame_payload frame)
      (fun x hx => hbytes x (List.take_subset _ _ hx)) i k (by omega) hk
  have hne : stored_crc (flipBit frame i k) ≠
      calculate_crc (frame_payload (flipBit frame i k)) := by
    rw [hstored, hcrc]
    exact fun h => hflip h.symm
  unfold parse_response
  rw [if_neg (by omega : ¬(flipBit frame i k).length < 5), if_pos hne]

/-- C1 (witness): flipping bit 3 of byte 2 of the valid request frame
`11 03 00 64 00 02 87 44` is reported as a CRC error. -/
theorem crc_tamper_detected_witness :
    (parse_response (flipBit [0x11, 0x03, 0x00, 0x64, 0x00, 0x02, 0x87, 0x44] 2 3)).crc_error
      = true :=
  crc_tamper_detected [0x11, 0x03, 0x00, 0x64, 0x00, 0x02, 0x87, 0x44]
    (by decide) (by decide) (by decide) 2 3 (by decide) (by decide)

/-! ### Scanner -/

theorem scanGo_mono (probe : Nat → ModbusResponse) :
    ∀ (ids : List Nat) (fids : List (Option Nat))
      (found : List (Option Nat × ModbusResponse)) (p : Option Nat × ModbusResponse),
      p ∈ found → p ∈ scanGo probe ids fids found := by
  intro ids
  induction ids with
  | nil => intro fids found p hp; simpa [scanGo] using hp
  | cons id rest ih =>
    intro fids found p hp
    simp only [scanGo]
    split
    · exact ih _ _ p (by simp [hp])
    · exact ih _ _ p hp

theorem scanGo_sound (probe : Nat → ModbusResponse) :
    ∀ (ids : List Nat) (fids : List (Option Nat))
      (found : List (Option Nat × ModbusResponse)), ∀ p ∈ scanGo probe ids fids found,
      p ∈ found ∨ ∃ id ∈ ids, probe id = p.2 ∧ p.1 = (probe id).slave_id ∧
        (probe id).is_valid = true := by
  intro ids
  induction ids with
  | nil => intro fids found p hp; exact Or.inl (by simpa [scanGo] using hp)
  | cons id rest ih =>
    intro fids found p hp
    simp only [scanGo] at hp
    split at hp
    case isTrue hcond =>
      rcases ih _ _ p hp with hin | ⟨id', hid', h1, h2, h3⟩
      · rcases List.mem_append.mp hin with hin | hnew
        · exact Or.inl hin
        · simp only [List.mem_singleton] at hnew
          subst hnew
          exact Or.inr ⟨id, by simp, rfl, rfl, hcond.1⟩
      · exact Or.inr ⟨id', by simp [hid'], h1, h2, h3⟩
    case isFalse hcond =>
      rcases ih _ _ p hp with hin | ⟨id', hid', h1, h2, h3⟩
      · exact Or.inl hin
      · exact Or.inr ⟨id', by simp [hid'], h1, h2, h3⟩

theorem scanGo_complete (probe : Nat → ModbusResponse) :
    ∀ (ids : List Nat) (fids : List (Option Nat))
      (found : List (Option Nat × ModbusResponse)),
      (∀ x ∈ fids, ∃ p ∈ found, p.1 = x) →
      ∀ id ∈ ids, (probe id).is_valid = true →
      ∃ p ∈ scanGo probe ids fids found, p.1 = (probe id).slave_id := by
  intro ids
  induction ids with
  | nil => intro fids found _ id hid; exact absurd hid (List.not_mem_nil id)
  | cons id0 rest ih =>
    intro fids found hinv id hid hvalid
    simp only [scanGo]
    split
    case isTrue hcond =>
      rcases List.mem_cons.mp hid with heq | hmem
      · subst heq
        exact ⟨((probe id).slave_id, probe id),
          scanGo_mono probe rest _ _ _ (by simp), rfl⟩
      · refine ih _ _ ?_ id hmem hvalid
        intro x hx
        rcases List.mem_cons.mp hx with hx0 | hxf
        · exact ⟨((probe id0).slave_id, probe id0), by simp [hx0]⟩
        · rcases hinv x hxf with ⟨p, hp, hpx⟩
          exact ⟨p, by simp [hp], hpx⟩
    case isFalse hcond =>
      rcases List.mem_cons.mp hid with heq | hmem
      · subst heq
        have hin : (probe id).slave_id ∈ fids := by
          by_contra hnot
          exact hcond ⟨hvalid, hnot⟩
        rcases hinv _ hin with ⟨p, hp, hpx⟩
        exact ⟨p, scanGo_mono probe rest _ _ p hp, hpx⟩
      · exact ih _ _ hinv id hmem hvalid

theorem scanGo_nodup (probe : Nat → ModbusResponse) :
    ∀ (ids : List Nat) (fids : List (Option Nat))
      (found : List (Option Nat × ModbusResponse)),
      (found.map Prod.fst).Nodup → (∀ p ∈ found, p.1 ∈ fids) →
      ((scanGo probe ids fids found).map Prod.fst).Nodup := by
  intro ids
  induction ids with
  | nil => intro fids found hnd _; simpa [scanGo] using hnd
  | cons id rest ih =>
    intro fids found hnd hsub
    simp only [scanGo]
    split
    case isTrue hcond =>
      refine ih _ _ ?_ ?_
      · rw [List.map_append]
        refine List.nodup_append.mpr ⟨hnd, by simp, ?_⟩
        intro a ha hb
        simp only [List.map_cons, List.map_nil, List.mem_singleton] at hb
        subst hb
        rcases List.mem_map.mp ha with ⟨p, hp, hpa⟩
        exact hcond.2 (hpa ▸ hsub p hp)
      · intro p hp
        rcases List.mem_append.mp hp with hin | hnew
        · exact List.mem_cons_of_mem _ (hsub p hin)
        · simp only [List.mem_singleton] at hnew
          subst hnew
          exact List.mem_cons_self _ _
    case isFalse hcond => exact ih _ _ hnd hsub

/-- C7: for every slave-ID range and every table of probe outcomes, each
entry of `scan_slaves` is a valid response produced by some probed ID and
keyed by its reported slave ID; every valid probe outcome is represented by
an entry with its reported slave ID; and the reported slave IDs in the
result are pairwise distinct even when several probes report the same ID. -/
theorem scan_slaves_valid_dedup (probe : Nat → ModbusResponse) (ids : List Nat) :
    (∀ p ∈ scan_slaves probe ids,
        p.2.is_valid = true ∧ p.1 = p.2.slave_id ∧ ∃ id ∈ ids, probe id = p.2) ∧
    (∀ id ∈ ids, (probe id).is_valid = true →
        ∃ p ∈ scan_slaves probe ids, p.1 = (probe id).slave_id) ∧
    ((scan_slaves probe ids).map Prod.fst).Nodup := by
  refine ⟨?_, ?_, ?_⟩
  · intro p hp
    rcases scanGo_sound probe ids [] [] p hp with h | ⟨id, hid, heq, hfst, hval⟩
    · simp at h
    · exact ⟨heq ▸ hval, heq ▸ hfst, id, hid, heq⟩
  · intro id hid hv
    exact scanGo_complete probe ids [] [] (by simp) id hid hv
  · exact scanGo_nodup probe ids [] [] (by simp) (by simp)

/-- C7 (witness): scanning IDs 1..5 against `probeW` (IDs 2 and 4 both
report slave ID 9) yields an entry keyed by the reported ID 9. -/
theorem scan_slaves_valid_dedup_witness :
    ∃ p ∈ scan_slaves probeW [1, 2, 3, 4, 5], p.1 = (probeW 2).slave_id :=
  (scan_slaves_valid_dedup probeW [1, 2, 3, 4, 5]).2.1 2 (by decide) (by decide)

/-! ### Passive monitor -/

theorem waveW1_eq : update_wave_stats (1/2) initWaveStats 0 =
    { waves := [], current_wave_start := some 0, current_wave_msgs := 1,
      last_msg_time := some 0, wave_intervals := [], avg_wave_interval := 0,
      avg_msgs_per_wave := 0, min_wave_interval := none, max_wave_interval := 0 } := by
  norm_num [update_wave_stats, initWaveStats]

theorem waveW2_eq : update_wave_stats (1/2) (update_wave_stats (1/2) initWaveStats 0) (1/10) =
    { waves := [], current_wave_start := some 0, current_wave_msgs := 2,
      last_msg_time := some (1/10), wave_intervals := [], avg_wave_interval := 0,
      avg_msgs_per_wave := 0, min_wave_interval := none, max_wave_interval := 0 } := by
  rw [waveW1_eq]
  norm_num [update_wave_stats]

theorem waveW3_eq : waveW3 =
    { waves := [], current_wave_start := some 0, current_wave_msgs := 3,
      last_msg_time := some (1/5), wave_intervals := [], avg_wave_interval := 0,
      avg_msgs_per_wave := 0, min_wave_interval := none, max_wave_interval := 0 } := by
  unfold waveW3
  rw [waveW2_eq]
  norm_num [update_wave_stats]

theorem waveW4_eq : waveW4 =
    { waves := [{ start := 0, «end» := 1/5, duration := 1/5, msg_count := 3 }],
      current_wave_start := some 1, current_wave_msgs := 1,
      last_msg_time := some 1, wave_intervals := [], avg_wave_interval := 0,
      avg_msgs_per_wave := 3, min_wave_interval := none, max_wave_interval := 0 } := by
  unfold waveW4
  rw [waveW3_eq]
  norm_num [update_wave_stats, dequeAppend]

/-- C9: messages at t = 0, 0.1, 0.2 then 1.0 s with a 0.5 s gap threshold
record exactly one closed wave (start 0, end 0.2, 3 messages) and leave a
new open wave started at t = 1 with one message; in general a gap strictly
above the threshold closes the open wave into history and any gap at most
the threshold only increments the open wave's message count. -/
theorem wave_segmentation :
    (waveW4.waves = [{ start := 0, «end» := 2/10, duration := 2/10, msg_count := 3 }] ∧
     waveW4.current_wave_start = some 1 ∧ waveW4.current_wave_msgs = 1) ∧
    ∀ (th : ℚ) (ws : WaveStats) (t last c : ℚ),
      ws.last_msg_time = some last → ws.current_wave_start = some c →
      ((th < t - last →
          (update_wave_stats th ws t).waves =
            dequeAppend 100 ws.waves
              { start := c, «end» := last, duration := last - c,
                msg_count := ws.current_wave_msgs } ∧
          (update_wave_stats th ws t).current_wave_start = some t ∧
          (update_wave_stats th ws t).current_wave_msgs = 1) ∧
       (t - last ≤ th →
          (update_wave_stats th ws t).waves = ws.waves ∧
          (update_wave_stats th ws t).current_wave_start = some c ∧
          (update_wave_stats th ws t).current_wave_msgs = ws.current_wave_msgs + 1)) := by
  constructor
  · refine ⟨?_, ?_, ?_⟩ <;> (rw [waveW4_eq]; try norm_num)
  · intro th ws t last c hlast hstart
    constructor
    · intro hgt
      refine ⟨?_, ?_, ?_⟩ <;> simp [update_wave_stats, hlast, hstart, hgt]
    · intro hle
      have hngt : ¬(th < t - last) := not_lt.mpr hle
      refine ⟨?_, ?_, ?_⟩ <;> simp [update_wave_stats, hlast, hstart, hngt]

/-- C9 (witness): the general gap rule applied to the 0.8 s gap (t = 1 after
a last message at t = 0.2 s, threshold 0.5 s). -/
theorem wave_segmentation_witness :
    (update_wave_stats (1/2) waveW3 1).current_wave_msgs = 1 :=
  ((wave_segmentation.2 (1/2) waveW3 1 (1/5) 0 (by rw [waveW3_eq]) (by rw [waveW3_eq])).1
    (by norm_num)).2.2

theorem update_wave_stats_last_msg (th : ℚ) (ws : WaveStats) (t : ℚ) :
    (update_wave_stats th ws t).last_msg_time = some t := rfl

/-- C10: an accepted frame from a tracked slave arriving less than 10 ms
after that slave's stored `last_seen` leaves the slave's polling statistics
record entirely unchanged and queues no display event, while the slave's
wave statistics are still updated (its `last_msg_time` becomes the new
timestamp); the live view therefore measures `time_since_last` (and reports
`message_count`) from the last counted poll, not the last physical frame. -/
theorem fast_frame_skips_poll_stats (st : MonitorState) (frame : List Nat)
    (t now prev : ℚ)
    (hvalid : (analyze_frame_validity st.protocols frame).1 = true)
    (hsid : frame.headI ∈ st.slave_ids)
    (hlast : (st.slave_stats frame.headI).last_seen = some prev)
    (hfast : t - prev < 1 / 100) :
    (process_frame st frame t).slave_stats frame.headI = st.slave_stats frame.headI ∧
    (process_frame st frame t).data_queue = st.data_queue ∧
    (process_frame st frame t).wave_stats frame.headI =
      update_wave_stats st.wave_gap_threshold (st.wave_stats frame.headI) t ∧
    ((process_frame st frame t).wave_stats frame.headI).last_msg_time = some t ∧
    (get_current_rates (process_frame st frame t) now frame.headI).map
        RateInfo.time_since_last = some (some (now - prev)) ∧
    (get_current_rates (process_frame st frame t) now frame.headI).map
        RateInfo.message_count = some (st.slave_stats frame.headI).count := by
  have hnle : ¬(1 / 100 ≤ t - prev) := not_le.mpr hfast
  have hfast' : t - prev < (100 : ℚ)⁻¹ := by rw [← one_div]; exact hfast
  have hproc : process_frame st frame t =
      { st with
          protocols := (analyze_frame_validity st.protocols frame).2
          wave_stats := fun i =>
            if i = frame.headI then
              update_wave_stats st.wave_gap_threshold (st.wave_stats frame.headI) t
            else st.wave_stats i } := by
    unfold process_frame
    simp [hvalid, hsid, hlast, hnle, hfast']
  rw [hproc]
  refine ⟨rfl, rfl, by simp, by simp [update_wave_stats_last_msg], ?_, ?_⟩
  · simp [get_current_rates, hsid, hlast]
  · simp [get_current_rates, hsid, hlast]

/-- C10 (witness): slave 5's frame at t = 10 + 1/200 s (5 ms after its
stored poll) leaves the display queue untouched while the wave clock
advances. -/
theorem fast_frame_skips_poll_stats_witness :
    (process_frame monitorW frameW (10 + 1/200)).data_queue = monitorW.data_queue ∧
    ((process_frame monitorW frameW (10 + 1/200)).wave_stats frameW.headI).last_msg_time
      = some (10 + 1/200) :=
  ⟨(fast_frame_skips_poll_stats monitorW frameW (10 + 1/200) 11 10
      (by decide) (by decide) (by simp [monitorW, frameW]) (by norm_num)).2.1,
   (fast_frame_skips_poll_stats monitorW frameW (10 + 1/200) 11 10
      (by decide) (by decide) (by simp [monitorW, frameW]) (by norm_num)).2.2.2.1⟩

/-- C2: `calculate_crc` maps the byte sequence `01 03 00 00 00 01` to exactly
`0x0A84` (little-endian trailer bytes `84 0A`), and on every byte sequence it
is a pure function whose result lies in the 16-bit range. -/
theorem crc_test_vector_and_range :
    calculate_crc [0x01, 0x03, 0x00, 0x00, 0x00, 0x01] = 0x0A84 ∧
    pack16le (calculate_crc [0x01, 0x03, 0x00, 0x00, 0x00, 0x01]) = [0x84, 0x0A] ∧
    ∀ data : List Nat, calculate_crc data < 65536 := by
  refine ⟨by decide, by decide, ?_⟩
  intro data
  have h : crcFold 0xFFFF data &&& 0xFFFF ≤ 0xFFFF := Nat.and_le_right
  unfold calculate_crc
  omega

/-- C4 (counterexample): exception code 7 lies in 1..11 yet the mapping
renders it as `"Unknown Exception (7)"`, so not every code from 1 to 11 gets
a fixed human-readable name. -/
theorem exception_name_seven_unknown :
    exceptionNameOf 7 = "Unknown Exception (7)" ∧ 1 ≤ 7 ∧ 7 ≤ 11 := by
  refine ⟨?_, by omega, by omega⟩
  decide

/-- C4 (amended): the mapping returns a fixed human-readable name exactly on
the nine codes {1,2,3,4,5,6,8,10,11}; every other code — including 7 and 9 —
renders as `"Unknown Exception (N)"` with `N` in decimal. -/
theorem exception_name_mapping :
    (exceptionNameOf 1 = "Illegal Function" ∧
     exceptionNameOf 2 = "Illegal Data Address" ∧
     exceptionNameOf 3 = "Illegal Data Value" ∧
     exceptionNameOf 4 = "Slave Device Failure" ∧
     exceptionNameOf 5 = "Acknowledge" ∧
     exceptionNameOf 6 = "Slave Device Busy" ∧
     exceptionNameOf 8 = "Memory Parity Error" ∧
     exceptionNameOf 10 = "Gateway Path Unavailable" ∧
     exceptionNameOf 11 = "Gateway Target Failed") ∧
    ∀ n : Nat, n ∉ ([1, 2, 3, 4, 5, 6, 8, 10, 11] : List Nat) →
      exceptionNameOf n = "Unknown Exception (" ++ toString n ++ ")" := by
  refine ⟨by decide, ?_⟩
  intro n hn
  simp only [List.mem_cons, List.not_mem_nil, or_false, not_or] at hn
  obtain ⟨h1, h2, h3, h4, h5, h6, h8, h10, h11⟩ := hn
  simp [exceptionNameOf, h1, h2, h3, h4, h5, h6, h8, h10, h11]

/-- C4 (witness for the amended theorem, at the unmapped code 7). -/
theorem exception_name_mapping_witness :
    (7 : Nat) ∉ ([1, 2, 3, 4, 5, 6, 8, 10, 11] : List Nat) ∧
    exceptionNameOf 7 = "Unknown Exception (" ++ toString (7 : Nat) ++ ")" :=
  ⟨by decide, exception_name_mapping.2 7 (by decide)⟩

/-- C5: for a buffer (of at least 3 bytes) whose second byte is a
read-registers function code 0x03/0x04 and whose third byte declares
`byte_count = b`, the completeness predicate accepts exactly when
`5 + b ≤ length`; with `byte_count = 4` a length-8 buffer is incomplete and
a length-9 buffer complete; every buffer shorter than 5 bytes is
incomplete. -/
theorem complete_frame_read_registers :
    (∀ (buffer : List Nat) (b : Nat), 3 ≤ buffer.length →
        (buffer.getD 1 0 = 0x03 ∨ buffer.getD 1 0 = 0x04) → buffer.getD 2 0 = b →
        (is_complete_frame buffer = true ↔ 5 + b ≤ buffer.length)) ∧
    is_complete_frame [0x11, 0x03, 0x04, 0x00, 0x01, 0x00, 0x02, 0x3B] = false ∧
    is_complete_frame [0x11, 0x03, 0x04, 0x00, 0x01, 0x00, 0x02, 0x3B, 0xF3] = true ∧
    ∀ buffer : List Nat, buffer.length < 5 → is_complete_frame buffer = false := by
  refine ⟨?_, by decide, by decide, ?_⟩
  · intro buffer b hlen hfc hb
    subst hb
    by_cases hl5 : buffer.length < 5
    · have hnb : ¬(5 + buffer.getD 2 0 ≤ buffer.length) := by omega
      simp only [List.getD_eq_getElem?_getD] at hnb
      rcases hfc with h | h <;> simp only [List.getD_eq_getElem?_getD] at h <;>
        simp [is_complete_frame, hl5, hnb, h]
    · rcases hfc with h | h <;> simp only [List.getD_eq_getElem?_getD] at h
      · simp [is_complete_frame, hl5, h, hlen, (by decide : (3 : Nat) &&& 128 = 0)]
      · simp [is_complete_frame, hl5, h, hlen, (by decide : (4 : Nat) &&& 128 = 0)]
  · intro buffer h
    simp [is_complete_frame, h]

/-- C5 (witness): the general part applied to the length-9 buffer with
`byte_count = 4`. -/
theorem complete_frame_read_registers_witness :
    is_complete_frame [0x11, 0x03, 0x04, 0x00, 0x01, 0x00, 0x02, 0x3B, 0xF3] = true :=
  (complete_frame_read_registers.1
      [0x11, 0x03, 0x04, 0x00, 0x01, 0x00, 0x02, 0x3B, 0xF3] 4
      (by decide) (by decide) (by decide)).mpr (by decide)

/-- C3: the read-holding-registers request for slave 17, start address 100,
count 2 is the 8-byte frame `11 03 00 64 00 02 87 44` (big-endian address
and count, little-endian CRC), and the read pipeline applied to the
well-formed response carrying registers 0x0001 and 0x0002 (byte count 4,
valid CRC `3B F3`) decodes to `[1, 2]` with no error. -/
theorem read_request_roundtrip :
    build_read_request 17 0x03 100 2 = [0x11, 0x03, 0x00, 0x64, 0x00, 0x02, 0x87, 0x44] ∧
    (build_read_request 17 0x03 100 2).length = 8 ∧
    read_registers_result
        (parse_response [0x11, 0x03, 0x04, 0x00, 0x01, 0x00, 0x02, 0x3B, 0xF3]) =
      (some [1, 2], none) := by
  refine ⟨by decide, by decide, by decide⟩

/-- C6: parsing any CRC-valid frame whose function-code byte is 0x83 and
whose third byte is 0x02 yields an exception response named
"Illegal Data Address" whose stored function code is 0x03 (high bit
cleared). -/
theorem parse_exception_frame :
    ∀ data : List Nat, 5 ≤ data.length → data.getD 1 0 = 0x83 → data.getD 2 0 = 0x02 →
    stored_crc data = calculate_crc (frame_payload data) →
    (parse_response data).is_exception = true ∧
    (parse_response data).exception_name = "Illegal Data Address" ∧
    (parse_response data).function_code = some 0x03 := by
  intro data hlen hfc hex hcrc
  have hnl : ¬(data.length < 5) := by omega
  have h2 : 2 < data.length := by omega
  unfold parse_response
  rw [if_neg hnl, if_neg (not_not_intro hcrc), hfc, hex,
    if_pos (by decide : (0x83 : Nat) &&& 0x80 ≠ 0), if_pos h2]
  refine ⟨rfl, rfl, ?_⟩
  show some (131 &&& 127) = some 3
  decide

/-- C6 (witness): the concrete frame `01 83 02 C0 F1`. -/
theorem parse_exception_frame_witness :
    (parse_response [0x01, 0x83, 0x02, 0xC0, 0xF1]).is_exception = true ∧
    (parse_response [0x01, 0x83, 0x02, 0xC0, 0xF1]).exception_name = "Illegal Data Address" ∧
    (parse_response [0x01, 0x83, 0x02, 0xC0, 0xF1]).function_code = some 0x03 :=
  parse_exception_frame [0x01, 0x83, 0x02, 0xC0, 0xF1]
    (by decide) (by decide) (by decide) (by decide)

/-- C8: with exactly 10 requests sent, 7 responses received, 2 timeouts and
1 CRC error the derived rates are 70 and 30 (percent), and whenever no
request has been sent both rates are 0. -/
theorem statistics_rates :
    (∀ ex : Nat,
        success_rate ⟨10, 7, 2, 1, ex⟩ = 70 ∧ error_rate ⟨10, 7, 2, 1, ex⟩ = 30) ∧
    ∀ s : Stats, s.requests_sent = 0 → success_rate s = 0 ∧ error_rate s = 0 := by
  constructor
  · intro ex
    constructor <;> norm_num [success_rate, error_rate]
  · intro s h
    simp [success_rate, error_rate, h]

/-- C8 (witness): the zero-requests case at the all-zero counter record. -/
theorem statistics_rates_witness :
    success_rate ⟨0, 0, 0, 0, 0⟩ = 0 ∧ error_rate ⟨0, 0, 0, 0, 0⟩ = 0 :=
  statistics_rates.2 ⟨0, 0, 0, 0, 0⟩ rfl

